import Mathlib

/-!
Verification development for the SEO audit tool (crawl-and-analyze pipeline).

The definitions below are a shallow embedding of the repository's core:
`server/src/utils/helpers.ts` (URL helpers, health score, pages breakdown),
`server/src/services/analyzer.ts` (per-page analyzer, orphan detection) and
`server/src/services/crawler.ts` (the bounded-concurrency crawler, embedded
as a small-step transition system).

Strings are manipulated through their underlying character lists so that all
definitions are executable and kernel-reducible.  JavaScript numbers holding
integral values (status codes, counts, lengths) are modelled as `Nat`; the
health-score arithmetic is modelled exactly over `ℚ`.
-/

namespace SeoAudit

/-! ## String helpers (models of the JS string operations used by the code) -/

/-- Model of JS `str.toLowerCase()` (ASCII range; the code only compares
ASCII hostnames and extensions). -/
def lowerStr (s : String) : String := String.mk (s.data.map Char.toLower)

/-- Model of JS `str.startsWith(p)`. -/
def strStartsWith (s p : String) : Bool := p.data.isPrefixOf s.data

/-- Model of JS `str.endsWith(p)`. -/
def strEndsWith (s p : String) : Bool := p.data.isSuffixOf s.data

/-- Model of JS `str.includes(c)` for a single character. -/
def strContainsChar (s : String) (c : Char) : Bool := s.data.contains c

/-- Model of JS `str.slice(0, -1)` (drop the final character). -/
def dropLastStr (s : String) : String := String.mk s.data.dropLast

/-- Split a character list at the first occurrence of `t`; `none` when `t`
does not occur.  Used to cut a URL at `:` when parsing. -/
def splitFirst (t : Char) : List Char → Option (List Char × List Char)
  | [] => none
  | c :: rest =>
    if c = t then some ([], rest)
    else
      match splitFirst t rest with
      | some (a, b) => some (c :: a, b)
      | none => none

/-- Take characters until one of `stops` is met; returns the prefix and the
remainder (remainder starts with the stop character when one was found). -/
def spanUntil (stops : List Char) : List Char → List Char × List Char
  | [] => ([], [])
  | c :: rest =>
    if c ∈ stops then ([], c :: rest)
    else
      let p := spanUntil stops rest
      (c :: p.1, p.2)

/-! ## URL model

The repository's URL helpers delegate parsing to the WHATWG `URL` class of
the Node standard library, which is external to the repository.  `UrlParts`,
`parseUrl`, `UrlParts.href` and `resolveUrlParts` below are a model of that
external parser restricted to the fragment the audited code exercises:
absolute URLs of the form `scheme:...` / `scheme://host[:port]path?query#frag`
without userinfo, percent-encoding, dot-segment normalization or IDNA.
Inputs outside this fragment parse to `none` (which the helpers translate to
their catch-branch behaviour).  All repository functions built on top of the
parser (`validateUrl`, `isInternalLink`, `resolveUrl`, `shouldCrawlUrl`) are
translated line-by-line from `server/src/utils/helpers.ts`. -/

structure UrlParts where
  scheme : String
  hasAuthority : Bool
  host : String
  port : String
  path : String
  query : String
  fragment : String
deriving DecidableEq, Repr

/-- The WHATWG special schemes (their URLs get a non-empty path `/`). -/
def specialSchemes : List String := ["ftp:", "file:", "http:", "https:", "ws:", "wss:"]

/-- Is `c` acceptable inside a URL scheme (after the leading letter)? -/
def isSchemeChar (c : Char) : Bool := c.isAlpha || c.isDigit || c = '+' || c = '-' || c = '.'

/-- Model of `new URL(url)` (absolute URLs only, fragment described above). -/
def parseUrl (url : String) : Option UrlParts :=
  match splitFirst ':' url.data with
  | none => none
  | some (schemeChars, rest) =>
    match schemeChars with
    | [] => none
    | c :: cs =>
      if ¬ c.isAlpha then none
      else if ¬ (c :: cs).all isSchemeChar then none
      else
        let scheme := String.mk ((c :: cs).map Char.toLower) ++ ":"
        match rest with
        | '/' :: '/' :: afterSlashes =>
          let p1 := spanUntil ['/', '?', '#'] afterSlashes
          if p1.1.contains '@' then none
          else
            let hp : List Char × List Char :=
              match splitFirst ':' p1.1 with
              | some (h, p) => (h, p)
              | none => (p1.1, [])
            if hp.1 = [] then none
            else if hp.2 ≠ [] ∧ ¬ hp.2.all Char.isDigit then none
            else
              let p2 := spanUntil ['?', '#'] p1.2
              let path := if p2.1 = [] ∧ scheme ∈ specialSchemes then "/" else String.mk p2.1
              let qf : List Char × List Char :=
                match p2.2 with
                | '?' :: _ => spanUntil ['#'] p2.2
                | _ => ([], p2.2)
              some { scheme := scheme, hasAuthority := true,
                     host := String.mk (hp.1.map Char.toLower), port := String.mk hp.2,
                     path := path, query := String.mk qf.1, fragment := String.mk qf.2 }
        | _ =>
          some { scheme := scheme, hasAuthority := false, host := "", port := "",
                 path := String.mk rest, query := "", fragment := "" }

/-- Model of the `href` serialisation of a parsed URL. -/
def UrlParts.href (p : UrlParts) : String :=
  p.scheme ++ (if p.hasAuthority then "//" ++ p.host ++ (if p.port = "" then "" else ":" ++ p.port) else "")
    ++ p.path ++ p.query ++ p.fragment

/-- Base path up to (and including) its last `/`; used for relative resolution. -/
def upToLastSlash (l : List Char) : List Char :=
  (l.reverse.dropWhile (fun c => c ≠ '/')).reverse

/-- Model of `new URL(relativeUrl, baseUrl)`: an absolute `relativeUrl` wins,
otherwise it is resolved against the parsed base. -/
def resolveUrlParts (baseUrl relativeUrl : String) : Option UrlParts :=
  match parseUrl relativeUrl with
  | some p => some p
  | none =>
    match parseUrl baseUrl with
    | none => none
    | some b =>
      match relativeUrl.data with
      | [] => some b
      | '/' :: '/' :: _ => parseUrl (b.scheme ++ relativeUrl)
      | '/' :: _ =>
        let p2 := spanUntil ['?', '#'] relativeUrl.data
        let qf : List Char × List Char :=
          match p2.2 with
          | '?' :: _ => spanUntil ['#'] p2.2
          | _ => ([], p2.2)
        some { b with path := String.mk p2.1, query := String.mk qf.1, fragment := String.mk qf.2 }
      | '#' :: _ => some { b with fragment := relativeUrl }
      | '?' :: _ =>
        let qf := spanUntil ['#'] relativeUrl.data
        some { b with query := String.mk qf.1, fragment := String.mk qf.2 }
      | _ =>
        let p2 := spanUntil ['?', '#'] relativeUrl.data
        let qf : List Char × List Char :=
          match p2.2 with
          | '?' :: _ => spanUntil ['#'] p2.2
          | _ => ([], p2.2)
        some { b with path := String.mk (upToLastSlash b.path.data ++ p2.1),
                      query := String.mk qf.1, fragment := String.mk qf.2 }

/-! ## URL helpers (`server/src/utils/helpers.ts`) -/

/-- Result shape of `validateUrl`. -/
structure ValidationResult where
  valid : Bool
  error : Option String
deriving DecidableEq, Repr

/-- `validateUrl` from `helpers.ts` (lines 28-59): protocol whitelist, then
localhost / private-prefix / `.local` rejection, then require a dot in the
hostname; a parse failure is the catch branch. -/
def validateUrl (url : String) : ValidationResult :=
  match parseUrl url with
  | none => { valid := false, error := some "Invalid URL format" }
  | some parsed =>
    if ¬ (parsed.scheme = "http:" ∨ parsed.scheme = "https:") then
      { valid := false, error := some "Invalid protocol. Use http:// or https://" }
    else
      let hostname := lowerStr parsed.host
      if hostname = "localhost" ∨ hostname = "127.0.0.1" ∨
          strStartsWith hostname "192.168." ∨ strStartsWith hostname "10." ∨
          strStartsWith hostname "172.16." ∨ strEndsWith hostname ".local" then
        { valid := false, error := some "Cannot audit localhost or private IP addresses" }
      else if ¬ strContainsChar hostname '.' then
        { valid := false, error := some "Invalid domain name" }
      else
        { valid := true, error := none }

/-- `isInternalLink` from `helpers.ts` (lines 76-84): hostname comparison
after resolving the link against the base; parse failure is `false`. -/
def isInternalLink (baseUrl linkUrl : String) : Bool :=
  match parseUrl baseUrl, resolveUrlParts baseUrl linkUrl with
  | some base, some link => base.host = link.host
  | _, _ => false

/-- `resolveUrl` from `helpers.ts` (lines 89-95): `href` of the resolved URL,
empty string on failure. -/
def resolveUrl (baseUrl relativeUrl : String) : String :=
  match resolveUrlParts baseUrl relativeUrl with
  | some p => p.href
  | none => ""

/-- The non-page file extensions skipped by the crawler (`helpers.ts` 228-235). -/
def skipExtensions : List String :=
  [".pdf", ".jpg", ".jpeg", ".png", ".gif", ".svg", ".webp", ".ico",
   ".mp4", ".webm", ".avi", ".mov", ".wmv",
   ".mp3", ".wav", ".ogg",
   ".zip", ".rar", ".tar", ".gz",
   ".doc", ".docx", ".xls", ".xlsx", ".ppt", ".pptx",
   ".css", ".js", ".json", ".xml", ".txt"]

/-- `shouldCrawlUrl` from `helpers.ts` (lines 218-246). -/
def shouldCrawlUrl (url : String) : Bool :=
  match parseUrl url with
  | none => false
  | some parsed =>
    if ¬ (parsed.scheme = "http:" ∨ parsed.scheme = "https:") then false
    else if skipExtensions.any (fun ext => strEndsWith (lowerStr parsed.path) ext) then false
    else true

/-! ## Issue taxonomy (`shared/types.ts`) -/

inductive IssueType where
  | error
  | warning
deriving DecidableEq, Repr

/-- One entry of the `ISSUE_DEFINITIONS` table. -/
structure IssueDef where
  title : String
  description : String
  type : IssueType
deriving DecidableEq, Repr

/-- The fixed `ISSUE_DEFINITIONS` taxonomy table from `shared/types.ts`. -/
def ISSUE_DEFINITIONS (code : String) : Option IssueDef :=
  if code = "broken_internal_link" then
    some ⟨"Broken internal links", "Internal links returning 4XX status codes", .error⟩
  else if code = "broken_external_link" then
    some ⟨"Broken external links", "External links returning 4XX or 5XX status codes", .error⟩
  else if code = "server_error_5xx" then
    some ⟨"Pages with server errors", "Pages returning 5XX status codes", .error⟩
  else if code = "missing_title" then
    some ⟨"Pages missing title tag", "Pages without a title tag or with empty title", .error⟩
  else if code = "redirect_chain" then
    some ⟨"Redirect chains detected", "URLs with 3 or more redirect hops", .error⟩
  else if code = "redirect_loop" then
    some ⟨"Redirect loops detected", "URLs with circular redirects", .error⟩
  else if code = "missing_meta_description" then
    some ⟨"Pages missing meta description", "Pages without a meta description tag", .warning⟩
  else if code = "missing_h1" then
    some ⟨"Pages missing H1 heading", "Pages without an H1 heading tag", .warning⟩
  else if code = "multiple_h1" then
    some ⟨"Pages with multiple H1 tags", "Pages with more than one H1 heading", .warning⟩
  else if code = "low_text_html_ratio" then
    some ⟨"Pages with low text-to-HTML ratio", "Pages with less than 10% text content", .warning⟩
  else if code = "title_too_long" then
    some ⟨"Title tags too long", "Title tags exceeding 60 characters", .warning⟩
  else if code = "title_too_short" then
    some ⟨"Title tags too short", "Title tags shorter than 30 characters", .warning⟩
  else if code = "meta_description_too_long" then
    some ⟨"Meta descriptions too long", "Meta descriptions exceeding 160 characters", .warning⟩
  else if code = "meta_description_too_short" then
    some ⟨"Meta descriptions too short", "Meta descriptions shorter than 70 characters", .warning⟩
  else if code = "missing_canonical" then
    some ⟨"Pages missing canonical tag", "Pages without a canonical URL specified", .warning⟩
  else if code = "missing_viewport" then
    some ⟨"Pages missing viewport meta tag", "Pages without viewport meta for mobile responsiveness", .warning⟩
  else if code = "missing_alt_text" then
    some ⟨"Images missing alt text", "Pages with images lacking alt attributes", .warning⟩
  else if code = "large_page_size" then
    some ⟨"Large page size", "Pages larger than 3MB", .warning⟩
  else if code = "slow_response" then
    some ⟨"Slow page response time", "Pages taking more than 3 seconds to respond", .warning⟩
  else if code = "orphan_page" then
    some ⟨"Orphan pages detected", "Pages not linked from any other crawled page", .warning⟩
  else if code = "missing_og_tags" then
    some ⟨"Missing Open Graph tags", "Pages without OG tags for social sharing", .warning⟩
  else if code = "missing_robots_meta" then
    some ⟨"Missing robots meta tag", "Pages without robots meta tag", .warning⟩
  else none

/-- An issue instance (`shared/types.ts`). -/
structure Issue where
  type : IssueType
  code : String
  title : String
  description : String
  urls : List String
  count : Nat
deriving DecidableEq, Repr

/-- `createIssue` from `analyzer.ts` (lines 247-257): look the code up in the
taxonomy, defaulting the type to `warning`, the title to the code and the
description to the empty string. -/
def createIssue (code : String) : Issue :=
  match ISSUE_DEFINITIONS code with
  | some definition =>
    { type := definition.type, code := code, title := definition.title,
      description := definition.description, urls := [], count := 1 }
  | none =>
    { type := .warning, code := code, title := code, description := "", urls := [], count := 1 }

/-! ## Fetched pages and extracted page data

`cheerio` (the HTML parser) is external to the repository; `Doc` is the
parsed view it provides of a non-empty HTML string: the extracted title text
(`$(title).first().text().trim()`), attribute values of the meta/link tags
the analyzer queries, the trimmed text of each `h1` element, the `alt`
attribute of each `img`, and the `href` of each `a[href]`.  `htmlLength` is
the length of the raw HTML string and `textLength` the length of the text
produced by `extractTextContent` (`helpers.ts` 251-261, a regex pipeline over
the same string), so that `calculateTextToHtmlRatio` can be stated exactly. -/

structure Doc where
  titleText : String
  metaDescriptionAttr : Option String
  h1Texts : List String
  canonicalHref : Option String
  viewportContent : Option String
  robotsContent : Option String
  ogTitle : Option String
  ogDescription : Option String
  ogImage : Option String
  imgAlts : List (Option String)
  anchorHrefs : List String
  htmlLength : Nat
  textLength : Nat
deriving DecidableEq, Repr

/-- `CrawlResult` from `crawler.ts` (lines 395-403).  The `html` string is
represented by its parsed view: `none` models an empty (falsy) `html` field,
`some d` a non-empty HTML string whose cheerio view is `d`.  The `headers`
field is never read by the analyzer or aggregator and is omitted. -/
structure CrawlResult where
  url : String
  statusCode : Nat
  responseTime : Nat
  html : Option Doc
  redirectChain : List String
  error : Option String
deriving DecidableEq, Repr

/-- JS truthiness of an optional string attribute (`undefined` and `""` are
falsy). -/
def truthy : Option String → Bool
  | none => false
  | some s => s ≠ ""

/-- JS `x || null` on an optional string: empty strings collapse to `none`. -/
def orNull : Option String → Option String
  | none => none
  | some s => if s = "" then none else some s

/-- Open Graph fields of a `PageData`. -/
structure OgTags where
  title : Option String
  description : Option String
  image : Option String
deriving DecidableEq, Repr

/-- Image counts of a `PageData`. -/
structure ImageCounts where
  total : Nat
  withoutAlt : Nat
deriving DecidableEq, Repr

/-- `PageData` from `shared/types.ts`. -/
structure PageData where
  url : String
  statusCode : Nat
  responseTime : Nat
  title : Option String
  metaDescription : Option String
  h1Tags : List String
  h1Count : Nat
  hasCanonical : Bool
  canonicalUrl : Option String
  hasViewport : Bool
  hasRobotsMeta : Bool
  robotsContent : Option String
  ogTags : OgTags
  images : ImageCounts
  textToHtmlRatio : ℚ
  pageSize : Nat
  internalLinks : List String
  externalLinks : List String
  issues : List Issue
deriving DecidableEq, Repr

/-- `calculateTextToHtmlRatio` from `helpers.ts` (lines 266-270), stated on
the parsed view: extracted text length over raw HTML length, times 100. -/
def calculateTextToHtmlRatio (d : Doc) : ℚ :=
  if d.htmlLength = 0 then 0 else (d.textLength : ℚ) / (d.htmlLength : ℚ) * 100

/-- One iteration of the link-extraction loop of `analyzePage`
(`analyzer.ts` 218-238): a non-empty href is resolved; a resolvable link
goes to `internalLinks` when `isInternalLink` holds, otherwise to
`externalLinks` when the resolved string starts with `http`; both lists are
deduplicated by exact string equality. -/
def classifyStep (pageUrl baseUrl : String) (acc : List String × List String)
    (href : String) : List String × List String :=
  if href ≠ "" then
    let absoluteUrl := resolveUrl pageUrl href
    if absoluteUrl ≠ "" then
      if isInternalLink baseUrl absoluteUrl then
        if absoluteUrl ∈ acc.1 then acc else (acc.1 ++ [absoluteUrl], acc.2)
      else if strStartsWith absoluteUrl "http" then
        if absoluteUrl ∈ acc.2 then acc else (acc.1, acc.2 ++ [absoluteUrl])
      else acc
    else acc
  else acc

/-- The link-extraction loop of `analyzePage` (`analyzer.ts` 214-241). -/
def classifyLinks (pageUrl baseUrl : String) (hrefs : List String) :
    List String × List String :=
  hrefs.foldl (classifyStep pageUrl baseUrl) ([], [])

/-- `analyzePage` from `analyzer.ts` (lines 43-245).  The unused analyzer
config parameter is dropped.  Issue order matches the source exactly:
server error, redirect chain, then (only when HTML is present) title, meta
description, H1, canonical, viewport, robots meta, Open Graph, alt text,
text-to-HTML ratio, page size, slow response. -/
def analyzePage (result : CrawlResult) (baseUrl : String) : PageData :=
  let baseIssues : List Issue :=
    (if result.statusCode ≥ 500 then [createIssue "server_error_5xx"] else []) ++
    (if result.redirectChain.length ≥ 3 then [createIssue "redirect_chain"] else [])
  match result.html with
  | none =>
    { url := result.url, statusCode := result.statusCode, responseTime := result.responseTime,
      title := none, metaDescription := none, h1Tags := [], h1Count := 0,
      hasCanonical := false, canonicalUrl := none, hasViewport := false,
      hasRobotsMeta := false, robotsContent := none,
      ogTags := ⟨none, none, none⟩, images := ⟨0, 0⟩,
      textToHtmlRatio := 0, pageSize := 0,
      internalLinks := [], externalLinks := [], issues := baseIssues }
  | some d =>
    let title := d.titleText
    let titleIssues : List Issue :=
      if title = "" then [createIssue "missing_title"]
      else
        (if title.data.length > 60 then [createIssue "title_too_long"] else []) ++
        (if title.data.length < 30 then [createIssue "title_too_short"] else [])
    let metaDescription := orNull d.metaDescriptionAttr
    let metaIssues : List Issue :=
      match metaDescription with
      | none => [createIssue "missing_meta_description"]
      | some s =>
        (if s.data.length > 160 then [createIssue "meta_description_too_long"] else []) ++
        (if s.data.length < 70 then [createIssue "meta_description_too_short"] else [])
    let h1Count := d.h1Texts.length
    let h1Issues : List Issue :=
      if h1Count = 0 then [createIssue "missing_h1"]
      else if h1Count > 1 then [createIssue "multiple_h1"]
      else []
    let canonicalIssues : List Issue :=
      if truthy d.canonicalHref then [] else [createIssue "missing_canonical"]
    let viewportIssues : List Issue :=
      if truthy d.viewportContent then [] else [createIssue "missing_viewport"]
    let robotsIssues : List Issue :=
      if truthy d.robotsContent then [] else [createIssue "missing_robots_meta"]
    let ogTags : OgTags := ⟨orNull d.ogTitle, orNull d.ogDescription, orNull d.ogImage⟩
    let ogIssues : List Issue :=
      if ogTags.title = none ∧ ogTags.description = none ∧ ogTags.image = none then
        [createIssue "missing_og_tags"]
      else []
    let imagesWithoutAlt := d.imgAlts.countP (fun alt => alt = none ∨ alt = some "")
    let altIssues : List Issue :=
      if imagesWithoutAlt > 0 then [createIssue "missing_alt_text"] else []
    let ratio := calculateTextToHtmlRatio d
    let ratioIssues : List Issue :=
      if ratio < 10 then [createIssue "low_text_html_ratio"] else []
    let sizeIssues : List Issue :=
      if d.htmlLength > 3 * 1024 * 1024 then [createIssue "large_page_size"] else []
    let slowIssues : List Issue :=
      if result.responseTime > 3000 then [createIssue "slow_response"] else []
    let links := classifyLinks result.url baseUrl d.anchorHrefs
    { url := result.url, statusCode := result.statusCode, responseTime := result.responseTime,
      title := if title = "" then none else some title,
      metaDescription := metaDescription,
      h1Tags := d.h1Texts.filter (fun t => t ≠ ""),
      h1Count := h1Count,
      hasCanonical := truthy d.canonicalHref,
      canonicalUrl := orNull d.canonicalHref,
      hasViewport := truthy d.viewportContent,
      hasRobotsMeta := truthy d.robotsContent,
      robotsContent := orNull d.robotsContent,
      ogTags := ogTags,
      images := ⟨d.imgAlts.length, imagesWithoutAlt⟩,
      textToHtmlRatio := ratio,
      pageSize := d.htmlLength,
      internalLinks := links.1, externalLinks := links.2,
      issues := baseIssues ++ titleIssues ++ metaIssues ++ h1Issues ++ canonicalIssues ++
                viewportIssues ++ robotsIssues ++ ogIssues ++ altIssues ++ ratioIssues ++
                sizeIssues ++ slowIssues }

/-! ## Orphan detection (`analyzer.ts` 259-292) -/

/-- The set of linked URLs: the homepage (with and without trailing slash) is
pre-seeded, then every internal link of every page is added together with its
slash-toggled variant.  The JS `Set` is modelled as a list queried by
membership. -/
def linkedPages (pages : List PageData) (baseUrl : String) : List String :=
  pages.foldl
    (fun acc page =>
      page.internalLinks.foldl
        (fun a link =>
          a ++ [link, if strEndsWith link "/" then dropLastStr link else link ++ "/"])
        acc)
    [baseUrl, baseUrl ++ "/"]

/-- Per-page orphan check: a page whose URL (in any slash form) is not linked
gets an `orphan_page` warning appended — unless it is the homepage. -/
def orphanStep (linked : List String) (baseUrl : String) (page : PageData) : PageData :=
  let url := page.url
  let urlWithSlash := if strEndsWith url "/" then url else url ++ "/"
  let urlWithoutSlash := if strEndsWith url "/" then dropLastStr url else url
  if url ∉ linked ∧ urlWithSlash ∉ linked ∧ urlWithoutSlash ∉ linked then
    if url ≠ baseUrl ∧ url ≠ baseUrl ++ "/" then
      { page with issues := page.issues ++ [createIssue "orphan_page"] }
    else page
  else page

/-- `detectOrphanPages` (functional rendering of the in-place mutation). -/
def detectOrphanPages (pages : List PageData) (baseUrl : String) : List PageData :=
  pages.map (orphanStep (linkedPages pages baseUrl) baseUrl)

/-! ## Aggregation (`helpers.ts`) -/

/-- `Math.round` on the range relevant here: round half toward positive
infinity. -/
def mathRound (q : ℚ) : ℤ := ⌊q + 1 / 2⌋

/-- `calculateSiteHealthScore` from `helpers.ts` (lines 100-115), with the
arithmetic modelled exactly over `ℚ`. -/
def calculateSiteHealthScore (errorsCount warningsCount totalPages : Nat) : ℤ :=
  if totalPages = 0 then 0
  else
    let totalChecks : ℚ := (totalPages : ℚ) * 16
    let deductions : ℚ := (errorsCount : ℚ) * 10 + (warningsCount : ℚ) * 2
    let score : ℚ := max 0 (100 - deductions / totalChecks * 100)
    mathRound score

/-- The four category counters of `calculateCrawledPagesBreakdown`. -/
structure BreakdownCounts where
  healthy : Nat
  withIssues : Nat
  redirects : Nat
  broken : Nat
deriving DecidableEq, Repr

/-- One loop iteration of `calculateCrawledPagesBreakdown` (`helpers.ts`
175-187): 3xx counts as redirect, ≥400 as broken, otherwise a page with a
non-empty issue list has issues, otherwise it is healthy. -/
def breakdownStep (acc : BreakdownCounts) (page : PageData) : BreakdownCounts :=
  if 300 ≤ page.statusCode ∧ page.statusCode < 400 then
    { acc with redirects := acc.redirects + 1 }
  else if 400 ≤ page.statusCode then
    { acc with broken := acc.broken + 1 }
  else if page.issues.length > 0 then
    { acc with withIssues := acc.withIssues + 1 }
  else
    { acc with healthy := acc.healthy + 1 }

/-- Result shape of `calculateCrawledPagesBreakdown` (`CrawledPages` in
`shared/types.ts`). -/
structure CrawledPages where
  total : Nat
  healthy : Nat
  withIssues : Nat
  redirects : Nat
  broken : Nat
deriving DecidableEq, Repr

/-- `calculateCrawledPagesBreakdown` from `helpers.ts` (lines 163-196). -/
def calculateCrawledPagesBreakdown (pages : List PageData) : CrawledPages :=
  let c := pages.foldl breakdownStep ⟨0, 0, 0, 0⟩
  { total := pages.length, healthy := c.healthy, withIssues := c.withIssues,
    redirects := c.redirects, broken := c.broken }

/-! ## Crawler engine (`crawler.ts`), as a small-step transition system

`processQueue`/`crawlPage` run on the single-threaded JS event loop: the
dispatch loop synchronously starts fetches (up to the concurrency cap) and
every fetch completion runs its link-extraction/result-push block atomically.
The relation below has one step per such atomic block and allows arbitrary
interleavings of dispatches and completions, a superset of the real
schedules, so its invariants cover every real execution.

`sanitizeUrlForCrawl` and `isAllowedByRobots` appear as function parameters
of the environment (the former is built on `URL`/`URLSearchParams` query
re-serialisation, the latter on the external `robots-parser` package); the
remaining helpers (`isInternalLink`, `shouldCrawlUrl`, `resolveUrl`) are the
concrete definitions above. -/

/-- The crawler configuration fields that the control flow reads. -/
structure CrawlerConfig where
  maxPages : Nat
  maxDepth : Nat
  maxConcurrentRequests : Nat
deriving DecidableEq, Repr

/-- Outcome of the `axios.get` of one URL: an HTTP response (its status,
parsed body when the data is a non-empty string, redirect chain and elapsed
time) or a transport failure (the catch branch of `crawlPage`). -/
inductive FetchOutcome where
  | success (statusCode : Nat) (data : Option Doc) (chain : List String) (time : Nat)
  | failure (message : String) (time : Nat)
deriving DecidableEq, Repr

/-- Build the `CrawlResult` that `crawlPage` records (`crawler.ts` 561-568
for responses, 592-600 for transport failures). -/
def mkCrawlResult (url : String) : FetchOutcome → CrawlResult
  | .success status data chain time =>
    { url := url, statusCode := status, responseTime := time, html := data,
      redirectChain := chain, error := none }
  | .failure msg time =>
    { url := url, statusCode := 0, responseTime := time, html := none,
      redirectChain := [], error := some msg }

/-- `extractLinks` from `crawler.ts` (lines 614-633): resolve every anchor
href of the page, keeping non-empty results, deduplicated. -/
def extractLinks (html : Doc) (baseUrl : String) : List String :=
  html.anchorHrefs.foldl
    (fun links href =>
      if href ≠ "" then
        let absoluteUrl := resolveUrl baseUrl href
        if absoluteUrl ≠ "" ∧ absoluteUrl ∉ links then links ++ [absoluteUrl] else links
      else links)
    []

/-- The crawl environment: configuration, base URL, the sanitizer and robots
gate (as functions), and the network (a map from URL to fetch outcome). -/
structure CrawlEnv where
  config : CrawlerConfig
  baseUrl : String
  sanitize : String → String
  allowed : String → Bool
  fetch : String → FetchOutcome

/-- Mutable crawler state (`visited`, `queue`, `results` fields of the
`Crawler` class, plus the set of in-flight fetches with their depths). -/
structure CrawlerState where
  queue : List (String × Nat)
  visited : List String
  results : List CrawlResult
  inflight : List (String × Nat)

/-- The link-enqueueing loop of `crawlPage` (`crawler.ts` 580-589): a
discovered link is queued when it is same-site, crawlable, not yet visited
(after sanitisation) and collected results plus current queue length stay
under the page cap; the queue grows while the loop runs, the results count
does not. -/
def enqueueLinks (env : CrawlEnv) (visited : List String) (resultsLen depth : Nat)
    (links : List String) (queue : List (String × Nat)) : List (String × Nat) :=
  links.foldl
    (fun q link =>
      if isInternalLink env.baseUrl link ∧ shouldCrawlUrl link = true ∧
          env.sanitize link ∉ visited ∧ resultsLen + q.length < env.config.maxPages then
        q ++ [(link, depth + 1)]
      else q)
    queue

/-- Atomic effect of one fetch completion (`crawlPage` after its `await`):
links are extracted and enqueued only for 2xx/3xx string responses while the
results count is still under the page cap (checked before the push), then the
result is pushed unconditionally. -/
def completePage (env : CrawlEnv) (s : CrawlerState) (url : String) (depth : Nat)
    (restInflight : List (String × Nat)) : CrawlerState :=
  let outcome := env.fetch url
  let result := mkCrawlResult url outcome
  let queue' :=
    match outcome with
    | .success status (some doc) _ _ =>
      if 200 ≤ status ∧ status < 400 ∧ s.results.length < env.config.maxPages then
        enqueueLinks env s.visited s.results.length depth (extractLinks doc url) s.queue
      else s.queue
    | _ => s.queue
  { queue := queue', visited := s.visited, results := s.results ++ [result],
    inflight := restInflight }

/-- One atomic step of the crawler.  The three `skip` constructors are the
`continue` branches of the dispatch loop (`processQueue`, lines 494-506); all
dispatch steps require the loop guards (free concurrency slot, page cap not
reached).  `complete` finishes any in-flight fetch. -/
inductive Step (env : CrawlEnv) : CrawlerState → CrawlerState → Prop where
  | skipVisited (u : String) (d : Nat) (rest : List (String × Nat)) (s : CrawlerState)
      (hq : s.queue = (u, d) :: rest)
      (hcap : s.inflight.length < env.config.maxConcurrentRequests)
      (hres : s.results.length < env.config.maxPages)
      (hvis : env.sanitize u ∈ s.visited) :
      Step env s { s with queue := rest }
  | skipDepth (u : String) (d : Nat) (rest : List (String × Nat)) (s : CrawlerState)
      (hq : s.queue = (u, d) :: rest)
      (hcap : s.inflight.length < env.config.maxConcurrentRequests)
      (hres : s.results.length < env.config.maxPages)
      (hvis : env.sanitize u ∉ s.visited)
      (hd : d > env.config.maxDepth) :
      Step env s { s with queue := rest }
  | skipRobots (u : String) (d : Nat) (rest : List (String × Nat)) (s : CrawlerState)
      (hq : s.queue = (u, d) :: rest)
      (hcap : s.inflight.length < env.config.maxConcurrentRequests)
      (hres : s.results.length < env.config.maxPages)
      (hvis : env.sanitize u ∉ s.visited)
      (hd : ¬ d > env.config.maxDepth)
      (hrob : env.allowed (env.sanitize u) = false) :
      Step env s { s with queue := rest }
  | dispatch (u : String) (d : Nat) (rest : List (String × Nat)) (s : CrawlerState)
      (hq : s.queue = (u, d) :: rest)
      (hcap : s.inflight.length < env.config.maxConcurrentRequests)
      (hres : s.results.length < env.config.maxPages)
      (hvis : env.sanitize u ∉ s.visited)
      (hd : ¬ d > env.config.maxDepth)
      (hrob : env.allowed (env.sanitize u) = true) :
      Step env s { queue := rest, visited := env.sanitize u :: s.visited,
                   results := s.results, inflight := s.inflight ++ [(env.sanitize u, d)] }
  | complete (u : String) (d : Nat) (before after : List (String × Nat)) (s : CrawlerState)
      (hin : s.inflight = before ++ (u, d) :: after) :
      Step env s (completePage env s u d (before ++ after))

/-- Initial crawler state: the frontier seeded with the start URL at depth 0
(`crawl`, lines 430-444). -/
def initState (startUrl : String) : CrawlerState :=
  { queue := [(startUrl, 0)], visited := [], results := [], inflight := [] }

/-- States reachable by the crawler from the start URL. -/
inductive Reachable (env : CrawlEnv) (startUrl : String) : CrawlerState → Prop where
  | init : Reachable env startUrl (initState startUrl)
  | step {s t : CrawlerState} :
      Reachable env startUrl s → Step env s t → Reachable env startUrl t

/-- The URLs a crawler state has committed to: recorded results plus
in-flight fetches. -/
def urlsOf (s : CrawlerState) : List String :=
  s.results.map (fun r => r.url) ++ s.inflight.map (fun p => p.1)

/-! ## Spec-side definition used to compare the spec's words with the code -/

/-- Split a character list on `.` separators. -/
def splitDots : List Char → List (List Char)
  | [] => [[]]
  | c :: rest =>
    let r := splitDots rest
    if c = '.' then [] :: r
    else
      match r with
      | h :: t => (c :: h) :: t
      | [] => [[c]]

/-- Read a non-empty all-digit chunk as a number. -/
def chunkToNat : List Char → Option Nat
  | l =>
    if l ≠ [] ∧ l.all Char.isDigit then
      some (l.foldl (fun n c => n * 10 + (c.toNat - 48)) 0)
    else none

/-- Follows the spec's words (not the source): a host that is a
"private-network address", read as an IPv4 dotted quad inside the RFC 1918
private ranges 10.0.0.0/8, 172.16.0.0/12 or 192.168.0.0/16.  Stated only to
compare the spec's claim about `validateUrl` with what the code checks. -/
def specPrivateNetworkAddress (host : String) : Bool :=
  match (splitDots host.data).map chunkToNat with
  | [some a, some b, some c, some d] =>
    a ≤ 255 ∧ b ≤ 255 ∧ c ≤ 255 ∧ d ≤ 255 ∧
      (a = 10 ∨ (a = 172 ∧ 16 ≤ b ∧ b ≤ 31) ∨ (a = 192 ∧ b = 168))
  | _ => false

/-! ## Concrete sample values used by witnesses and counterexamples -/

/-- A page record with no issues and a transport-failure status code. -/
def samplePage : PageData :=
  { url := "http://site.example/page", statusCode := 0, responseTime := 10, title := none,
    metaDescription := none, h1Tags := [], h1Count := 0, hasCanonical := false,
    canonicalUrl := none, hasViewport := false, hasRobotsMeta := false, robotsContent := none,
    ogTags := ⟨none, none, none⟩, images := ⟨0, 0⟩, textToHtmlRatio := 0, pageSize := 0,
    internalLinks := [], externalLinks := [], issues := [] }

/-- A parsed page matching the spec's "only Open Graph missing" scenario:
45-character title, 100-character meta description, one H1, canonical,
viewport and robots meta present, no OG tags, no images, 50% text ratio. -/
def ogScenarioDoc : Doc :=
  { titleText := String.mk (List.replicate 45 'a'),
    metaDescriptionAttr := some (String.mk (List.replicate 100 'b')),
    h1Texts := ["Welcome"],
    canonicalHref := some "http://site.example/page",
    viewportContent := some "width=device-width",
    robotsContent := some "index, follow",
    ogTitle := none, ogDescription := none, ogImage := none,
    imgAlts := [], anchorHrefs := [],
    htmlLength := 200, textLength := 100 }

/-- A successful fetch of `ogScenarioDoc`. -/
def ogScenarioResult : CrawlResult :=
  { url := "http://site.example/page", statusCode := 200, responseTime := 120,
    html := some ogScenarioDoc, redirectChain := [], error := none }

/-- The same page with the robots meta tag removed. -/
def ogScenarioNoRobotsDoc : Doc := { ogScenarioDoc with robotsContent := none }

/-- A successful fetch of `ogScenarioNoRobotsDoc`. -/
def ogScenarioNoRobotsResult : CrawlResult :=
  { ogScenarioResult with html := some ogScenarioNoRobotsDoc }

/-- A 503 response with no body reached through three redirect hops. -/
def serverErrorChainResult : CrawlResult :=
  { url := "http://site.example/err", statusCode := 503, responseTime := 50, html := none,
    redirectChain := ["http://site.example/r1", "http://site.example/r2",
                      "http://site.example/r3"],
    error := none }

/-- A 503 response with no body and no redirects. -/
def serverErrorResult : CrawlResult := { serverErrorChainResult with redirectChain := [] }

/-- A page containing a single same-host `ftp:` anchor. -/
def ftpLinkDoc : Doc := { ogScenarioDoc with anchorHrefs := ["ftp://site.example/file"] }

/-- A successful fetch of `ftpLinkDoc`. -/
def ftpLinkResult : CrawlResult := { ogScenarioResult with html := some ftpLinkDoc }

/-- A page containing a single `mailto:` anchor. -/
def mailtoDoc : Doc := { ogScenarioDoc with anchorHrefs := ["mailto:info@site.example"] }

/-- A successful fetch of `mailtoDoc`. -/
def mailtoResult : CrawlResult := { ogScenarioResult with html := some mailtoDoc }

/-- Homepage of the two-link site used to exercise the page cap: it links to
two further crawlable same-site pages. -/
def capSiteHomeDoc : Doc :=
  { titleText := "Home", metaDescriptionAttr := none, h1Texts := [], canonicalHref := none,
    viewportContent := none, robotsContent := none, ogTitle := none, ogDescription := none,
    ogImage := none, imgAlts := [],
    anchorHrefs := ["http://cap.example/a", "http://cap.example/b"],
    htmlLength := 100, textLength := 50 }

/-- A leaf page of the two-link site (no outbound links). -/
def capSiteLeafDoc : Doc := { capSiteHomeDoc with anchorHrefs := [] }

/-- The network of the two-link site: every URL responds 200 with HTML. -/
def capSiteFetch : String → FetchOutcome := fun u =>
  if u = "http://cap.example/" then .success 200 (some capSiteHomeDoc) [] 10
  else .success 200 (some capSiteLeafDoc) [] 10

/-- Crawl environment with `maxPages := 2` and three concurrency slots over
the two-link site; the sanitizer is the identity (which agrees with
`sanitizeUrlForCrawl` on these fragment-free, parameter-free URLs) and
robots allows everything (no robots.txt). -/
def capEnv : CrawlEnv :=
  { config := { maxPages := 2, maxDepth := 3, maxConcurrentRequests := 3 },
    baseUrl := "http://cap.example/",
    sanitize := fun u => u, allowed := fun _ => true, fetch := capSiteFetch }

/-- A one-page environment whose sole fetch fails at the transport level. -/
def oneEnv : CrawlEnv :=
  { config := { maxPages := 50, maxDepth := 3, maxConcurrentRequests := 5 },
    baseUrl := "http://one.example/",
    sanitize := fun u => u, allowed := fun _ => true,
    fetch := fun _ => .failure "connection refused" 5 }

/-! ## Theorems -/

/-- Helper: the total of the four breakdown counters grows by one per page. -/
theorem breakdown_foldl_sum (l : List PageData) :
    ∀ acc : BreakdownCounts,
      (l.foldl breakdownStep acc).healthy + (l.foldl breakdownStep acc).withIssues +
        (l.foldl breakdownStep acc).redirects + (l.foldl breakdownStep acc).broken =
      acc.healthy + acc.withIssues + acc.redirects + acc.broken + l.length := by
  induction l with
  | nil => intro acc; simp
  | cons p rest ih =>
    intro acc
    simp only [List.foldl_cons, List.length_cons, ih (breakdownStep acc p)]
    unfold breakdownStep
    split_ifs <;> simp <;> omega

/-- Claim C2: for every errorsCount, warningsCount and totalPages,
`calculateSiteHealthScore` returns an integer in [0, 100]; with 0 errors and
0 warnings and totalPages > 0 it returns exactly 100, and with totalPages = 0
it returns exactly 0 (the score being
round(max(0, 100 − (errors·10 + warnings·2)/(totalPages·16)·100)) by
definition). -/
theorem calculateSiteHealthScore_spec (e w t : Nat) :
    0 ≤ calculateSiteHealthScore e w t ∧ calculateSiteHealthScore e w t ≤ 100 ∧
      (e = 0 → w = 0 → 0 < t → calculateSiteHealthScore e w t = 100) ∧
      (t = 0 → calculateSiteHealthScore e w t = 0) := by
  unfold calculateSiteHealthScore mathRound
  by_cases ht : t = 0
  · simp [ht]
  · simp only [ht, if_false]
    set x : ℚ := ((e : ℚ) * 10 + (w : ℚ) * 2) / ((t : ℚ) * 16) * 100 with hx
    have hx0 : 0 ≤ x := by
      have htpos : (0 : ℚ) < (t : ℚ) * 16 := by
        have : (0 : ℚ) < (t : ℚ) := by exact_mod_cast Nat.pos_of_ne_zero ht
        linarith
      rw [hx]
      positivity
    have hs0 : (0 : ℚ) ≤ max 0 (100 - x) := le_max_left _ _
    have hs100 : max 0 (100 - x) ≤ 100 := max_le (by norm_num) (by linarith)
    refine ⟨?_, ?_, ?_, ?_⟩
    · rw [Int.le_floor]
      push_cast
      linarith
    · have : ⌊max 0 (100 - x) + 1 / 2⌋ ≤ ⌊(100 : ℚ) + 1 / 2⌋ :=
        Int.floor_le_floor (by linarith)
      have h100 : ⌊(100 : ℚ) + 1 / 2⌋ = 100 := by norm_num [Int.floor_eq_iff]
      omega
    · intro he hw htpos
      subst he; subst hw
      have hxz : x = 0 := by rw [hx]; norm_num
      rw [hxz]
      norm_num [Int.floor_eq_iff]
    · intro h; exact h.elim

/-- Claim C2 witness: the theorem applied at concrete inputs. -/
theorem calculateSiteHealthScore_spec_witness :
    calculateSiteHealthScore 0 0 3 = 100 ∧ calculateSiteHealthScore 7 9 0 = 0 :=
  ⟨(calculateSiteHealthScore_spec 0 0 3).2.2.1 rfl rfl (by norm_num),
   (calculateSiteHealthScore_spec 7 9 0).2.2.2 rfl⟩

/-- Claim C3: for every list of pages, the breakdown's `total` is the list
length and the four categories partition it exactly. -/
theorem calculateCrawledPagesBreakdown_partition (pages : List PageData) :
    (calculateCrawledPagesBreakdown pages).total = pages.length ∧
      (calculateCrawledPagesBreakdown pages).healthy +
        (calculateCrawledPagesBreakdown pages).withIssues +
        (calculateCrawledPagesBreakdown pages).redirects +
        (calculateCrawledPagesBreakdown pages).broken =
      (calculateCrawledPagesBreakdown pages).total := by
  unfold calculateCrawledPagesBreakdown
  refine ⟨rfl, ?_⟩
  simpa using breakdown_foldl_sum pages ⟨0, 0, 0, 0⟩

/-- Helper: one breakdown iteration only adds its increment on top of the
accumulator. -/
theorem breakdownStep_shift (p : PageData) (a : BreakdownCounts) :
    breakdownStep a p =
      { healthy := a.healthy + (breakdownStep ⟨0, 0, 0, 0⟩ p).healthy,
        withIssues := a.withIssues + (breakdownStep ⟨0, 0, 0, 0⟩ p).withIssues,
        redirects := a.redirects + (breakdownStep ⟨0, 0, 0, 0⟩ p).redirects,
        broken := a.broken + (breakdownStep ⟨0, 0, 0, 0⟩ p).broken } := by
  unfold breakdownStep
  split_ifs <;> simp

/-- Helper: the breakdown fold splits off its accumulator componentwise. -/
theorem breakdown_foldl_shift (l : List PageData) :
    ∀ a : BreakdownCounts,
      l.foldl breakdownStep a =
        { healthy := a.healthy + (l.foldl breakdownStep ⟨0, 0, 0, 0⟩).healthy,
          withIssues := a.withIssues + (l.foldl breakdownStep ⟨0, 0, 0, 0⟩).withIssues,
          redirects := a.redirects + (l.foldl breakdownStep ⟨0, 0, 0, 0⟩).redirects,
          broken := a.broken + (l.foldl breakdownStep ⟨0, 0, 0, 0⟩).broken } := by
  induction l with
  | nil => intro a; simp
  | cons p rest ih =>
    intro a
    simp only [List.foldl_cons]
    rw [ih (breakdownStep a p), ih (breakdownStep ⟨0, 0, 0, 0⟩ p), breakdownStep_shift p a]
    simp [BreakdownCounts.mk.injEq]
    omega

/-- Claim C9: a page with statusCode 0 (transport failure) is counted by
`calculateCrawledPagesBreakdown` as healthy when its issues list is empty and
as withIssues otherwise, and never under redirects or broken. -/
theorem breakdown_statusZero (pages : List PageData) (p : PageData)
    (h0 : p.statusCode = 0) :
    (calculateCrawledPagesBreakdown (p :: pages)).redirects =
        (calculateCrawledPagesBreakdown pages).redirects ∧
      (calculateCrawledPagesBreakdown (p :: pages)).broken =
        (calculateCrawledPagesBreakdown pages).broken ∧
      (p.issues = [] →
        (calculateCrawledPagesBreakdown (p :: pages)).healthy =
            (calculateCrawledPagesBreakdown pages).healthy + 1 ∧
          (calculateCrawledPagesBreakdown (p :: pages)).withIssues =
            (calculateCrawledPagesBreakdown pages).withIssues) ∧
      (p.issues ≠ [] →
        (calculateCrawledPagesBreakdown (p :: pages)).withIssues =
            (calculateCrawledPagesBreakdown pages).withIssues + 1 ∧
          (calculateCrawledPagesBreakdown (p :: pages)).healthy =
            (calculateCrawledPagesBreakdown pages).healthy) := by
  have hstep : ∀ a : BreakdownCounts,
      breakdownStep a p =
        if p.issues.length > 0 then { a with withIssues := a.withIssues + 1 }
        else { a with healthy := a.healthy + 1 } := by
    intro a
    unfold breakdownStep
    rw [if_neg (by omega), if_neg (by omega)]
  unfold calculateCrawledPagesBreakdown
  simp only [List.foldl_cons]
  rw [breakdown_foldl_shift pages (breakdownStep ⟨0, 0, 0, 0⟩ p), hstep]
  by_cases hi : p.issues = []
  · rw [if_neg (by simp [hi])]
    refine ⟨by simp, by simp, fun _ => ⟨by simp; omega, by simp⟩, fun h => absurd hi h⟩
  · rw [if_pos (by simpa using List.length_pos.mpr hi)]
    exact ⟨by simp, by simp, fun h => absurd h hi, fun _ => ⟨by simp; omega, by simp⟩⟩

/-- Claim C9 witness: the theorem applied to a concrete status-0 page. -/
theorem breakdown_statusZero_witness :
    (calculateCrawledPagesBreakdown [samplePage]).healthy =
        (calculateCrawledPagesBreakdown []).healthy + 1 ∧
      (calculateCrawledPagesBreakdown [samplePage]).withIssues =
        (calculateCrawledPagesBreakdown []).withIssues :=
  (breakdown_statusZero [] samplePage rfl).2.2.1 rfl

/-- Claim C6: orphan detection never appends an issue to the homepage, with
or without a trailing slash — the output page at the homepage's position is
unchanged. -/
theorem detectOrphanPages_homepage (pages : List PageData) (baseUrl : String)
    (i : Nat) (h : i < pages.length)
    (h2 : i < (detectOrphanPages pages baseUrl).length)
    (hurl : (pages.get ⟨i, h⟩).url = baseUrl ∨ (pages.get ⟨i, h⟩).url = baseUrl ++ "/") :
    (detectOrphanPages pages baseUrl).get ⟨i, h2⟩ = pages.get ⟨i, h⟩ := by
  have hmap : (detectOrphanPages pages baseUrl).get ⟨i, h2⟩ =
      orphanStep (linkedPages pages baseUrl) baseUrl (pages.get ⟨i, h⟩) := by
    simp [detectOrphanPages, List.get_eq_getElem]
  rw [hmap]
  unfold orphanStep
  dsimp only
  have hC : ¬ ((pages.get ⟨i, h⟩).url ≠ baseUrl ∧ (pages.get ⟨i, h⟩).url ≠ baseUrl ++ "/") := by
    rcases hurl with hu | hu
    · exact fun hc => hc.1 hu
    · exact fun hc => hc.2 hu
  simp only [ne_eq] at hC
  simp
  intro _ _ _ h4 h5
  exact absurd (not_and.mp hC (fun e => h4 (by simpa using e))) (by simpa using h5)

/-- Claim C6 witness: the theorem applied to a concrete one-page site whose
only page is the homepage. -/
theorem detectOrphanPages_homepage_witness :
    (detectOrphanPages [{ samplePage with url := "http://site.example" }]
        "http://site.example").get ⟨0, by simp [detectOrphanPages]⟩ =
      { samplePage with url := "http://site.example" } :=
  detectOrphanPages_homepage _ "http://site.example" 0 (by simp)
    (by simp [detectOrphanPages]) (Or.inl rfl)

/-- Claim C8 (amended): `validateUrl` returns valid = false when the URL
fails to parse, when its scheme is not http or https, when its lowercased
hostname equals `localhost` or `127.0.0.1`, starts with `192.168.`, `10.` or
`172.16.`, or ends in `.local`, and when its hostname contains no dot. -/
theorem validateUrl_rejections (url : String) :
    (parseUrl url = none → (validateUrl url).valid = false) ∧
      (∀ p : UrlParts, parseUrl url = some p →
        (¬ (p.scheme = "http:" ∨ p.scheme = "https:") →
          (validateUrl url).valid = false) ∧
        ((lowerStr p.host = "localhost" ∨ lowerStr p.host = "127.0.0.1" ∨
            strStartsWith (lowerStr p.host) "192.168." = true ∨
            strStartsWith (lowerStr p.host) "10." = true ∨
            strStartsWith (lowerStr p.host) "172.16." = true ∨
            strEndsWith (lowerStr p.host) ".local" = true) →
          (validateUrl url).valid = false) ∧
        (strContainsChar (lowerStr p.host) '.' = false →
          (validateUrl url).valid = false)) := by
  constructor
  · intro hp
    unfold validateUrl
    rw [hp]
  · intro p hp
    refine ⟨?_, ?_, ?_⟩
    · intro h
      unfold validateUrl
      rw [hp]
      dsimp only
      rw [if_pos h]
    · intro h
      unfold validateUrl
      rw [hp]
      dsimp only
      by_cases hs : ¬ (p.scheme = "http:" ∨ p.scheme = "https:")
      · rw [if_pos hs]
      · rw [if_neg hs, if_pos h]
    · intro h
      unfold validateUrl
      rw [hp]
      dsimp only
      by_cases hs : ¬ (p.scheme = "http:" ∨ p.scheme = "https:")
      · rw [if_pos hs]
      · rw [if_neg hs]
        by_cases hh : lowerStr p.host = "localhost" ∨ lowerStr p.host = "127.0.0.1" ∨
            strStartsWith (lowerStr p.host) "192.168." = true ∨
            strStartsWith (lowerStr p.host) "10." = true ∨
            strStartsWith (lowerStr p.host) "172.16." = true ∨
            strEndsWith (lowerStr p.host) ".local" = true
        · rw [if_pos hh]
        · rw [if_neg hh, if_pos (by simp [h])]

/-- Claim C8 counterexample: `172.17.0.1` is an RFC 1918 private-network
address (it lies in 172.16.0.0/12), yet `validateUrl` accepts it — the code
only checks the string prefix `172.16.`. -/
theorem validateUrl_private_counterexample :
    (parseUrl "http://172.17.0.1/").map (fun p => specPrivateNetworkAddress p.host) =
        some true ∧
      (validateUrl "http://172.17.0.1/").valid = true := by
  constructor
  · rfl
  · rfl

/-- Claim C8 witness: the amended theorem applied at concrete URLs. -/
theorem validateUrl_rejections_witness :
    (validateUrl "ftp://site.example/").valid = false ∧
      (validateUrl "http://192.168.0.3/").valid = false ∧
      (validateUrl "http://intranet/").valid = false ∧
      (validateUrl "not a url").valid = false :=
  ⟨((validateUrl_rejections "ftp://site.example/").2 _ rfl).1 (by decide),
   (((validateUrl_rejections "http://192.168.0.3/").2 _ rfl).2.1 (by decide)),
   (((validateUrl_rejections "http://intranet/").2 _ rfl).2.2 (by decide)),
   (validateUrl_rejections "not a url").1 (by decide)⟩

/-- Claim C5 (amended): for every fetch result with statusCode 503, empty
html and fewer than 3 redirect hops, analysis produces exactly the issue
list [server_error_5xx] and leaves every markup-derived field at its
default — no markup check is attempted. -/
theorem analyzePage_503_no_html (r : CrawlResult) (baseUrl : String)
    (hstatus : r.statusCode = 503) (hhtml : r.html = none)
    (hchain : r.redirectChain.length < 3) :
    analyzePage r baseUrl =
      { url := r.url, statusCode := 503, responseTime := r.responseTime,
        title := none, metaDescription := none, h1Tags := [], h1Count := 0,
        hasCanonical := false, canonicalUrl := none, hasViewport := false,
        hasRobotsMeta := false, robotsContent := none,
        ogTags := ⟨none, none, none⟩, images := ⟨0, 0⟩,
        textToHtmlRatio := 0, pageSize := 0,
        internalLinks := [], externalLinks := [],
        issues := [createIssue "server_error_5xx"] } := by
  unfold analyzePage
  rw [hhtml, hstatus]
  have h1 : ¬ (r.redirectChain.length ≥ 3) := by omega
  simp [h1]

/-- Claim C5 counterexample: a 503 fetch with empty html but a 3-hop
redirect chain gets the issues [server_error_5xx, redirect_chain], not
[server_error_5xx] alone. -/
theorem analyzePage_503_counterexample :
    serverErrorChainResult.statusCode = 503 ∧ serverErrorChainResult.html = none ∧
      (analyzePage serverErrorChainResult "http://site.example").issues.map
          (fun i => i.code) = ["server_error_5xx", "redirect_chain"] ∧
      (analyzePage serverErrorChainResult "http://site.example").issues ≠
        [createIssue "server_error_5xx"] := by
  refine ⟨rfl, rfl, rfl, ?_⟩
  decide

/-- Claim C5 witness: the amended theorem applied to a concrete fetch
result. -/
theorem analyzePage_503_no_html_witness :
    analyzePage serverErrorResult "http://site.example" =
      { url := "http://site.example/err", statusCode := 503, responseTime := 50,
        title := none, metaDescription := none, h1Tags := [], h1Count := 0,
        hasCanonical := false, canonicalUrl := none, hasViewport := false,
        hasRobotsMeta := false, robotsContent := none,
        ogTags := ⟨none, none, none⟩, images := ⟨0, 0⟩,
        textToHtmlRatio := 0, pageSize := 0,
        internalLinks := [], externalLinks := [],
        issues := [createIssue "server_error_5xx"] } :=
  analyzePage_503_no_html serverErrorResult "http://site.example" rfl rfl (by decide)

/-- Helper: a falsy attribute collapses to `none` under `x || null`. -/
theorem orNull_eq_none_of_not_truthy {o : Option String} (h : truthy o = false) :
    orNull o = none := by
  cases o with
  | none => rfl
  | some s =>
    simp only [truthy, decide_eq_false_iff_not, not_not] at h
    simp [orNull, h]

/-- Helper: under the "only Open Graph (and possibly robots meta) missing"
scenario the analyzer's issue list reduces to the robots-meta check's
outcome followed by `missing_og_tags`. -/
theorem analyzePage_scenario_issues (r : CrawlResult) (baseUrl : String) (d : Doc)
    (m : String)
    (hhtml : r.html = some d)
    (hstatus : r.statusCode < 500)
    (hchain : r.redirectChain.length < 3)
    (hslow : r.responseTime ≤ 3000)
    (htitle : d.titleText.data.length = 45)
    (hmeta : d.metaDescriptionAttr = some m)
    (hmlen : m.data.length = 100)
    (hh1 : d.h1Texts.length = 1)
    (hcan : truthy d.canonicalHref = true)
    (hview : truthy d.viewportContent = true)
    (hogT : truthy d.ogTitle = false)
    (hogD : truthy d.ogDescription = false)
    (hogI : truthy d.ogImage = false)
    (himg : d.imgAlts = [])
    (hratio : ¬ calculateTextToHtmlRatio d < 10)
    (hsize : d.htmlLength ≤ 3 * 1024 * 1024) :
    (analyzePage r baseUrl).issues =
      (if truthy d.robotsContent = true then [] else [createIssue "missing_robots_meta"]) ++
        [createIssue "missing_og_tags"] := by
  have h500 : ¬ (r.statusCode ≥ 500) := by omega
  have h3 : ¬ (r.redirectChain.length ≥ 3) := by omega
  have ht0 : d.titleText ≠ "" := by
    intro e
    rw [e] at htitle
    simp at htitle
  have hm0 : m ≠ "" := by
    intro e
    rw [e] at hmlen
    simp at hmlen
  have hmOr : orNull (some m) = some m := by simp [orNull, hm0]
  have hogT2 := orNull_eq_none_of_not_truthy hogT
  have hogD2 := orNull_eq_none_of_not_truthy hogD
  have hogI2 := orNull_eq_none_of_not_truthy hogI
  have hsize2 : ¬ (d.htmlLength > 3 * 1024 * 1024) := by omega
  have hslow2 : ¬ (r.responseTime > 3000) := by omega
  unfold analyzePage
  rw [hhtml]
  dsimp only
  simp only [hmeta, hmOr, htitle, hmlen, hh1, hcan, hview, himg, hogT2, hogD2, hogI2,
    ht0, h500, h3, hratio, hsize2, hslow2, List.countP_nil]
  norm_num

/-- Claim C4 (amended): a fetched page with statusCode < 500, fewer than 3
redirect hops, response time ≤ 3000 ms, a 45-character title, a
100-character meta description, exactly one H1, canonical, viewport and
robots meta present, no Open Graph tags, no images, text-to-HTML ratio not
below 10% and page size ≤ 3 MiB is analyzed to exactly one warning,
missing_og_tags, and zero errors. -/
theorem analyzePage_og_scenario (r : CrawlResult) (baseUrl : String) (d : Doc)
    (m : String)
    (hhtml : r.html = some d)
    (hstatus : r.statusCode < 500)
    (hchain : r.redirectChain.length < 3)
    (hslow : r.responseTime ≤ 3000)
    (htitle : d.titleText.data.length = 45)
    (hmeta : d.metaDescriptionAttr = some m)
    (hmlen : m.data.length = 100)
    (hh1 : d.h1Texts.length = 1)
    (hcan : truthy d.canonicalHref = true)
    (hview : truthy d.viewportContent = true)
    (hrob : truthy d.robotsContent = true)
    (hogT : truthy d.ogTitle = false)
    (hogD : truthy d.ogDescription = false)
    (hogI : truthy d.ogImage = false)
    (himg : d.imgAlts = [])
    (hratio : ¬ calculateTextToHtmlRatio d < 10)
    (hsize : d.htmlLength ≤ 3 * 1024 * 1024) :
    (analyzePage r baseUrl).issues = [createIssue "missing_og_tags"] ∧
      ((analyzePage r baseUrl).issues.filter
          (fun i => i.type = IssueType.error)).length = 0 ∧
      ((analyzePage r baseUrl).issues.filter
          (fun i => i.type = IssueType.warning)).length = 1 := by
  have hi := analyzePage_scenario_issues r baseUrl d m hhtml hstatus hchain hslow htitle
    hmeta hmlen hh1 hcan hview hogT hogD hogI himg hratio hsize
  rw [hrob, if_pos rfl, List.nil_append] at hi
  refine ⟨hi, ?_, ?_⟩ <;> rw [hi] <;> decide

/-- Claim C4 counterexample: a page satisfying every condition of the claim
(45-char title, 100-char meta description, one H1, canonical present,
viewport present, no OG tags, no images) but with no robots meta tag gets
two warnings, missing_robots_meta and missing_og_tags, not exactly one. -/
theorem analyzePage_og_counterexample :
    ogScenarioNoRobotsDoc.titleText.data.length = 45 ∧
      (ogScenarioNoRobotsDoc.metaDescriptionAttr.map
          (fun s => s.data.length)) = some 100 ∧
      ogScenarioNoRobotsDoc.h1Texts.length = 1 ∧
      truthy ogScenarioNoRobotsDoc.canonicalHref = true ∧
      truthy ogScenarioNoRobotsDoc.viewportContent = true ∧
      ogScenarioNoRobotsDoc.ogTitle = none ∧
      ogScenarioNoRobotsDoc.ogDescription = none ∧
      ogScenarioNoRobotsDoc.ogImage = none ∧
      ogScenarioNoRobotsDoc.imgAlts = [] ∧
      ogScenarioNoRobotsResult.html = some ogScenarioNoRobotsDoc ∧
      (analyzePage ogScenarioNoRobotsResult "http://site.example").issues.map
          (fun i => i.code) = ["missing_robots_meta", "missing_og_tags"] ∧
      ((analyzePage ogScenarioNoRobotsResult "http://site.example").issues.filter
          (fun i => i.type = IssueType.warning)).length ≠ 1 := by
  have hratio : ¬ calculateTextToHtmlRatio ogScenarioNoRobotsDoc < 10 := by
    norm_num [calculateTextToHtmlRatio, ogScenarioNoRobotsDoc, ogScenarioDoc]
  have hi := analyzePage_scenario_issues ogScenarioNoRobotsResult "http://site.example"
    ogScenarioNoRobotsDoc (String.mk (List.replicate 100 'b')) rfl (by decide) (by decide)
    (by decide) (by decide) rfl (by decide) rfl (by decide) (by decide) rfl rfl rfl rfl
    hratio (by decide)
  rw [if_neg (by decide), List.singleton_append] at hi
  refine ⟨by decide, by decide, rfl, by decide, by decide, rfl, rfl, rfl, rfl, rfl, ?_, ?_⟩
  · rw [hi]
    decide
  · rw [hi]
    decide

/-- Claim C4 witness: the amended theorem applied to a concrete page that
also carries a robots meta tag. -/
theorem analyzePage_og_scenario_witness :
    (analyzePage ogScenarioResult "http://site.example").issues =
        [createIssue "missing_og_tags"] ∧
      ((analyzePage ogScenarioResult "http://site.example").issues.filter
          (fun i => i.type = IssueType.error)).length = 0 ∧
      ((analyzePage ogScenarioResult "http://site.example").issues.filter
          (fun i => i.type = IssueType.warning)).length = 1 :=
  analyzePage_og_scenario ogScenarioResult "http://site.example" ogScenarioDoc
    (String.mk (List.replicate 100 'b')) rfl (by decide) (by decide) (by decide)
    (by decide) rfl (by decide) rfl (by decide) (by decide) (by decide) rfl rfl rfl rfl
    (by norm_num [calculateTextToHtmlRatio, ogScenarioDoc]) (by decide)

/-- Helper: every URL in the accumulated internal list passed
`isInternalLink` and every URL in the external list starts with `http`. -/
theorem classifyLinks_foldl_mem (pageUrl baseUrl : String) (hrefs : List String) :
    ∀ acc : List String × List String,
      (∀ u ∈ acc.1, isInternalLink baseUrl u = true) →
      (∀ u ∈ acc.2, strStartsWith u "http" = true) →
      (∀ u ∈ (hrefs.foldl (classifyStep pageUrl baseUrl) acc).1,
          isInternalLink baseUrl u = true) ∧
        (∀ u ∈ (hrefs.foldl (classifyStep pageUrl baseUrl) acc).2,
          strStartsWith u "http" = true) := by
  induction hrefs with
  | nil => intro acc h1 h2; exact ⟨h1, h2⟩
  | cons href rest ih =>
    intro acc h1 h2
    simp only [List.foldl_cons]
    apply ih
    · intro u hu
      unfold classifyStep at hu
      dsimp only at hu
      split_ifs at hu with he hne hint hdup hhttp hdup2 <;>
        first
          | exact h1 u hu
          | (rcases List.mem_append.mp hu with h | h
             · exact h1 u h
             · rw [List.mem_singleton.mp h]; exact hint)
    · intro u hu
      unfold classifyStep at hu
      dsimp only at hu
      split_ifs at hu with he hne hint hdup hhttp hdup2 <;>
        first
          | exact h2 u hu
          | (rcases List.mem_append.mp hu with h | h
             · exact h2 u h
             · rw [List.mem_singleton.mp h]; exact hhttp)

/-- Claim C10 (amended): a URL that neither starts with the string `http`
nor satisfies `isInternalLink` against the base URL (for example the
resolution of a `mailto:`, `tel:` or `javascript:` href against an http(s)
base) appears in neither `internalLinks` nor `externalLinks` of any analyzed
page.  (Same-host non-http(s) URLs such as `ftp://samehost/...` do land in
`internalLinks`, and off-host URLs whose text starts with `http` land in
`externalLinks`.) -/
theorem analyzePage_link_classification (r : CrawlResult) (baseUrl u : String)
    (hhttp : strStartsWith u "http" = false)
    (hint : isInternalLink baseUrl u = false) :
    u ∉ (analyzePage r baseUrl).internalLinks ∧
      u ∉ (analyzePage r baseUrl).externalLinks := by
  cases hh : r.html with
  | none =>
    unfold analyzePage
    rw [hh]
    simp
  | some d =>
    have hcl := classifyLinks_foldl_mem r.url baseUrl d.anchorHrefs ([], [])
      (by intro u hu; simp at hu) (by intro u hu; simp at hu)
    have hil : (analyzePage r baseUrl).internalLinks =
        (d.anchorHrefs.foldl (classifyStep r.url baseUrl) ([], [])).1 := by
      unfold analyzePage classifyLinks
      rw [hh]
    have hel : (analyzePage r baseUrl).externalLinks =
        (d.anchorHrefs.foldl (classifyStep r.url baseUrl) ([], [])).2 := by
      unfold analyzePage classifyLinks
      rw [hh]
    rw [hil, hel]
    constructor
    · intro hu
      rw [hcl.1 u hu] at hint
      exact absurd hint (by simp)
    · intro hu
      rw [hcl.2 u hu] at hhttp
      exact absurd hhttp (by simp)

/-- Claim C10 counterexample: the same-host anchor `ftp://site.example/file`
resolves to a URL whose scheme is `ftp:` — neither http nor https — yet it
appears in the page's `internalLinks`. -/
theorem links_ftp_counterexample :
    ftpLinkDoc.anchorHrefs = ["ftp://site.example/file"] ∧
      resolveUrl ftpLinkResult.url "ftp://site.example/file" = "ftp://site.example/file" ∧
      (parseUrl "ftp://site.example/file").map (fun p => p.scheme) = some "ftp:" ∧
      "ftp:" ≠ "http:" ∧ "ftp:" ≠ "https:" ∧
      "ftp://site.example/file" ∈
        (analyzePage ftpLinkResult "http://site.example").internalLinks := by
  refine ⟨rfl, by decide, by decide, by decide, by decide, ?_⟩
  decide

/-- Claim C10 witness: the amended theorem applied to a page carrying a
`mailto:` anchor. -/
theorem analyzePage_link_classification_witness :
    "mailto:info@site.example" ∉
        (analyzePage mailtoResult "http://site.example").internalLinks ∧
      "mailto:info@site.example" ∉
        (analyzePage mailtoResult "http://site.example").externalLinks :=
  analyzePage_link_classification mailtoResult "http://site.example"
    "mailto:info@site.example" (by decide) (by decide)

/-- Helper: the recorded result of a fetch keeps the fetched URL. -/
theorem mkCrawlResult_url (u : String) (o : FetchOutcome) : (mkCrawlResult u o).url = u := by
  cases o <;> rfl

/-- Helper: one crawler step preserves the committed-URLs invariant. -/
theorem step_invariant (env : CrawlEnv)
    (hidem : ∀ u, env.sanitize (env.sanitize u) = env.sanitize u)
    {s t : CrawlerState} (hstep : Step env s t)
    (ihnd : (urlsOf s).Nodup) (ihvis : ∀ x ∈ urlsOf s, x ∈ s.visited)
    (ihfix : ∀ x ∈ urlsOf s, env.sanitize x = x) :
    (urlsOf t).Nodup ∧ (∀ x ∈ urlsOf t, x ∈ t.visited) ∧
      (∀ x ∈ urlsOf t, env.sanitize x = x) := by
  cases hstep with
  | skipVisited u d rest s hq hcap hres hvis => exact ⟨ihnd, ihvis, ihfix⟩
  | skipDepth u d rest s hq hcap hres hvis hd => exact ⟨ihnd, ihvis, ihfix⟩
  | skipRobots u d rest s hq hcap hres hvis hd hrob => exact ⟨ihnd, ihvis, ihfix⟩
  | dispatch u d rest s hq hcap hres hvis hd hrob =>
    have hurls :
        urlsOf { queue := rest, visited := env.sanitize u :: s.visited,
                 results := s.results,
                 inflight := s.inflight ++ [(env.sanitize u, d)] } =
          urlsOf s ++ [env.sanitize u] := by
      simp [urlsOf]
    refine ⟨?_, ?_, ?_⟩
    · rw [hurls, List.nodup_append]
      refine ⟨ihnd, List.nodup_singleton _, ?_⟩
      intro a ha hb
      rw [List.mem_singleton.mp hb] at ha
      exact hvis (ihvis _ ha)
    · intro x hx
      rw [hurls] at hx
      rcases List.mem_append.mp hx with h | h
      · exact List.mem_cons_of_mem _ (ihvis x h)
      · rw [List.mem_singleton.mp h]
        exact List.mem_cons_self _ _
    · intro x hx
      rw [hurls] at hx
      rcases List.mem_append.mp hx with h | h
      · exact ihfix x h
      · rw [List.mem_singleton.mp h]
        exact hidem u
  | complete u d before after s hin =>
    have hnew : urlsOf (completePage env s u d (before ++ after)) =
        s.results.map (fun r => r.url) ++
          (u :: (before.map (fun p => p.1) ++ after.map (fun p => p.1))) := by
      simp [urlsOf, completePage, mkCrawlResult_url]
    have hold : urlsOf s =
        s.results.map (fun r => r.url) ++
          (before.map (fun p => p.1) ++ u :: after.map (fun p => p.1)) := by
      simp [urlsOf, hin]
    have hperm : List.Perm (urlsOf (completePage env s u d (before ++ after))) (urlsOf s) := by
      rw [hnew, hold]
      exact List.Perm.append_left _ List.perm_middle.symm
    have hvisited : (completePage env s u d (before ++ after)).visited = s.visited := rfl
    refine ⟨hperm.nodup_iff.mpr ihnd, ?_, ?_⟩
    · intro x hx
      rw [hvisited]
      exact ihvis x (hperm.subset hx)
    · intro x hx
      exact ihfix x (hperm.subset hx)

/-- Helper invariant of every reachable crawler state: the committed URLs
(results plus in-flight) are pairwise distinct, all marked visited, and all
fixed points of the sanitizer (given an idempotent sanitizer). -/
theorem reachable_invariant (env : CrawlEnv) (startUrl : String)
    (hidem : ∀ u, env.sanitize (env.sanitize u) = env.sanitize u)
    (s : CrawlerState) (hr : Reachable env startUrl s) :
    (urlsOf s).Nodup ∧ (∀ x ∈ urlsOf s, x ∈ s.visited) ∧
      (∀ x ∈ urlsOf s, env.sanitize x = x) := by
  induction hr with
  | init =>
    refine ⟨by simp [urlsOf, initState], ?_, ?_⟩ <;>
      · intro x hx
        simp [urlsOf, initState] at hx
  | step hprev hstep ih => exact step_invariant env hidem hstep ih.1 ih.2.1 ih.2.2

/-- Claim C7: in every reachable crawler state (for any idempotent
sanitizer, as `sanitizeUrlForCrawl` is), no two recorded results share the
same sanitized URL. -/
theorem crawl_no_sanitized_revisit (env : CrawlEnv) (startUrl : String)
    (s : CrawlerState)
    (hidem : ∀ u, env.sanitize (env.sanitize u) = env.sanitize u)
    (hr : Reachable env startUrl s) :
    List.Pairwise (fun a b : CrawlResult => env.sanitize a.url ≠ env.sanitize b.url)
      s.results := by
  obtain ⟨hnd, hvis, hfix⟩ := reachable_invariant env startUrl hidem s hr
  have hnd2 : (s.results.map (fun r => r.url)).Nodup := (List.nodup_append.mp hnd).1
  have hpw : List.Pairwise (fun a b : CrawlResult => a.url ≠ b.url) s.results :=
    List.pairwise_map.mp hnd2
  refine hpw.imp_of_mem ?_
  intro a b ha hb hne
  have hfa : env.sanitize a.url = a.url :=
    hfix a.url (List.mem_append_left _ (List.mem_map_of_mem _ ha))
  have hfb : env.sanitize b.url = b.url :=
    hfix b.url (List.mem_append_left _ (List.mem_map_of_mem _ hb))
  rw [hfa, hfb]
  exact hne

/-- Claim C7 witness: the theorem applied to a concrete one-fetch crawl
(dispatch the start URL, then complete its fetch). -/
theorem crawl_no_sanitized_revisit_witness :
    List.Pairwise (fun a b : CrawlResult => oneEnv.sanitize a.url ≠ oneEnv.sanitize b.url)
      [mkCrawlResult "http://one.example/" (FetchOutcome.failure "connection refused" 5)] :=
  crawl_no_sanitized_revisit oneEnv "http://one.example/" _ (fun _ => rfl)
    (Reachable.step
      (Reachable.step Reachable.init
        (Step.dispatch "http://one.example/" 0 [] _ rfl (by decide) (by decide)
          (by decide) (by decide) rfl))
      (Step.complete "http://one.example/" 0 [] [] _ (by decide)))

/-- Claim C1: the page cap can be exceeded while fetches are in flight.
With `maxPages := 2` and 3 concurrency slots over a site whose homepage
links to two crawlable same-site pages, the crawler reaches a state with 3
recorded results: the dispatch guard `results.length < maxPages` admits both
links while the homepage's result is the only one recorded, and every
completed fetch pushes its result unconditionally. -/
theorem crawl_exceeds_page_cap :
    capEnv.config.maxPages = 2 ∧
      ∃ s : CrawlerState,
        Reachable capEnv "http://cap.example/" s ∧ s.results.length = 3 := by
  refine ⟨rfl, ?_⟩
  have r0 : Reachable capEnv "http://cap.example/" (initState "http://cap.example/") :=
    Reachable.init
  have r1 := Reachable.step r0
    (Step.dispatch "http://cap.example/" 0 [] _ rfl (by decide) (by decide) (by decide)
      (by decide) (by decide))
  have r2 := Reachable.step r1
    (Step.complete "http://cap.example/" 0 [] [] _ (by decide))
  have r3 := Reachable.step r2
    (Step.dispatch "http://cap.example/a" 1 [("http://cap.example/b", 1)] _ (by decide)
      (by decide) (by decide) (by decide) (by decide) (by decide))
  have r4 := Reachable.step r3
    (Step.dispatch "http://cap.example/b" 1 [] _ (by decide) (by decide) (by decide)
      (by decide) (by decide) (by decide))
  have r5 := Reachable.step r4
    (Step.complete "http://cap.example/a" 1 [] [("http://cap.example/b", 1)] _ (by decide))
  have r6 := Reachable.step r5
    (Step.complete "http://cap.example/b" 1 [] [] _ (by decide))
  exact ⟨_, r6, by decide⟩

end SeoAudit
